import Mathlib

/-!
Shallow embedding of `src/main.py` (BookRecomendations/DataScrapper), a
concurrent fetch-extract-record pipeline.  Pure helpers (`chunk_data`, input
row parsing, the header-writing step) are translated directly; the stateful
worker loop `scrape_urls` is translated as explicit state passing over a
`SysState` record, with the external collaborators (HTTP fetch, HTML
extraction, file-system appends) supplied as oracle inputs per item.
-/

namespace DataScrapper

/-- Result of requests.get, raise_for_status and BeautifulSoup extraction for
one item: either the fetch/parse raised an exception (with message), or it
succeeded and soup.find for the DetailsLayoutRightParagraph div yielded an
optional region whose stripped text is given. -/
inductive FetchResult where
  | failure (msg : String)
  | success (region : Option String)
deriving DecidableEq, Repr

/-- Oracle environment for processing one work item: the fetch/extract outcome
and whether the append to the error-sink file raises an IO error
(`log_error_to_csv` opens the file with no try/except around it). -/
structure ItemEnv where
  fetch : FetchResult
  errSinkFail : Bool
deriving DecidableEq, Repr

/-- The process-wide shared state of `main.py`: the global `scraped_count`
(guarded by `lock_count`), the rows so far appended to the result sink
`new_descriptions.csv` (guarded by `lock`), the rows so far appended to the
error sink `scraping_errors.csv` (guarded by `lock_error`), and the log
events: the counter values at which an ETA line was logged and at which the
all-URLs-scraped line was logged. -/
structure SysState where
  scraped_count : Nat
  resultRows : List (Int × Option String)
  errorRows : List (Int × String × String)
  etaLogs : List Nat
  doneLogs : List Nat
deriving DecidableEq, Repr

/-- Initial global state: `scraped_count = 0`, both sink files empty, no log
lines yet (lines 31-33 of main.py). -/
def initState : SysState := ⟨0, [], [], [], []⟩

/-- The `finally` block of the item loop (main.py lines 96-111): under
`lock_count`, increment `scraped_count`; if the new count is a multiple of 10,
compute and log the ETA; if the new count equals `total_urls`, log the
all-URLs-scraped message. -/
def progress_update (total : Nat) (s : SysState) : SysState :=
  let c := s.scraped_count + 1
  { s with
    scraped_count := c
    etaLogs := if c % 10 = 0 then s.etaLogs ++ [c] else s.etaLogs
    doneLogs := if c = total then s.doneLogs ++ [c] else s.doneLogs }

/-- The description computed for a fetched page (main.py lines 79-90): if the
description div exists, take its stripped text, nulled out when shorter than
10 characters; if no div is found, `None`. -/
def descriptionOf (region : Option String) : Option String :=
  match region with
  | some text => if text.length < 10 then none else some text
  | none => none

/-- The local `results` row the loop body appends for one item: on success
`(book_id, description)`, and on exception `(book_id, None)` — main.py
lines 87, 90 and 94 all append to `results`. -/
def itemResult (p : (Int × String) × ItemEnv) : Int × Option String :=
  match p.2.fetch with
  | .success region => (p.1.1, descriptionOf region)
  | .failure _ => (p.1.1, none)

/-- The error-sink row written for one item, if any: only the `except` branch
(main.py line 95) calls `log_error_to_csv(book_id, url, error_message)`. -/
def itemError (p : (Int × String) × ItemEnv) : Option (Int × String × String) :=
  match p.2.fetch with
  | .failure msg => some (p.1.1, p.1.2, msg)
  | .success _ => none

/-- The `for row in data` loop of `scrape_urls` (main.py lines 71-111),
threading the shared state and the local `results` accumulator.  On a fetch
success the result row is appended locally; on a fetch exception the result
row `(book_id, None)` is appended and `log_error_to_csv` is called — if that
call itself raises (error-sink IO failure), the exception is not caught by the
already-active `except` handler, the `finally` block still increments the
counter, and the exception aborts the loop (third component `true`). -/
def runItems : List ((Int × String) × ItemEnv) → Nat → SysState →
    List (Int × Option String) → SysState × List (Int × Option String) × Bool
  | [], _, s, acc => (s, acc, false)
  | p :: rest, total, s, acc =>
    match p.2.fetch with
    | .success region =>
      runItems rest total (progress_update total s)
        (acc ++ [(p.1.1, descriptionOf region)])
    | .failure msg =>
      let acc' := acc ++ [(p.1.1, none)]
      if p.2.errSinkFail then
        (progress_update total s, acc', true)
      else
        runItems rest total
          (progress_update total
            { s with errorRows := s.errorRows ++ [(p.1.1, p.1.2, msg)] })
          acc'

/-- Flushing the local `results` to the result sink, `save_to_csv`
(main.py lines 116-133): under `lock`, append every row; any exception is
caught and logged, losing the rows of this flush only. `rf` is the oracle for
an IO failure of this append. -/
def save_to_csv (rf : Bool) (results : List (Int × Option String))
    (s : SysState) : SysState :=
  if rf then s else { s with resultRows := s.resultRows ++ results }

/-- The batch worker `scrape_urls` (main.py lines 58-113): run the item loop,
then — unless an error-sink IO failure aborted the loop with an uncaught
exception — flush the accumulated `results` via `save_to_csv` and return the
completion message.  `none` in the second component means the exception
propagated out of `scrape_urls`. -/
def scrape_urls (batch : List ((Int × String) × ItemEnv)) (rf : Bool)
    (total : Nat) (s : SysState) : SysState × Option String :=
  match runItems batch total s [] with
  | (s', results, aborted) =>
    if aborted then (s', none)
    else (save_to_csv rf results s', some "Scraping complete")

/-- Sequential execution of a list of batches against the shared state.  Each
counter update and each sink append happens under its own lock, so any
concurrent schedule of the batch workers is equivalent to interleaving these
atomic steps; the final shared state of a schedule that runs batches in some
order is the fold below (ThreadPoolExecutor.map swallows the value returned by
a worker, and also its exception, so the fold continues regardless of the
second component). -/
def run_batches (bs : List (List ((Int × String) × ItemEnv))) (rf : Bool)
    (total : Nat) (s : SysState) : SysState :=
  bs.foldl (fun st b => (scrape_urls b rf total st).1) s

/-- The partitioner `chunk_data` (main.py lines 153-165):
`k, m = divmod(len(data), n)` then the slices
`data[i*k + min(i, m) : (i+1)*k + min(i+1, m)]` for `i in range(n)`. -/
def chunk_data (data : List α) (n : Nat) : List (List α) :=
  let k := data.length / n
  let m := data.length % n
  (List.range n).map fun i =>
    (data.drop (i * k + min i m)).take ((i + 1) * k + min (i + 1) m - (i * k + min i m))

/-- Python `divmod(len(data), n)` raises `ZeroDivisionError` when `n = 0`;
this wrapper makes `chunk_data` fallible exactly there. -/
def chunk_data_py (data : List α) (n : Nat) : Except String (List (List α)) :=
  if n = 0 then .error "ZeroDivisionError: integer division or modulo by zero"
  else .ok (chunk_data data n)

/-- Parsing one CSV row (main.py lines 183-189): the tuple
`(int(row[1]), row[2])` is built left to right, so `int(row[1])` may raise
`ValueError` (non-integer second column) or `IndexError` (fewer than two
columns), and `row[2]` may raise `IndexError` (fewer than three columns); any
of these skips the row.  Python `int` on a string is modelled by
`String.toInt?`. -/
def parseRow (row : List String) : Option (Int × String) :=
  match row.get? 1 with
  | none => none
  | some s =>
    match s.toInt? with
    | none => none
    | some i =>
      match row.get? 2 with
      | none => none
      | some u => some (i, u)

/-- The well-formed (id, url) pairs read from the input rows
(main.py lines 180-191): malformed rows are skipped. -/
def read_id_url_pairs (rows : List (List String)) : List (Int × String) :=
  rows.filterMap parseRow

/-- The batch count chosen by `read_id_url_pairs_from_csv` (main.py line 194):
`int(math.sqrt(len(id_url_pairs) * MAX_WORKERS) * 2)` with
`MAX_WORKERS = 128`, modelled with the natural-number square root (exact at
perfect squares, in particular at 0, the only value the claims evaluate). -/
def numChunks (t : Nat) : Nat := Nat.sqrt (t * 128) * 2

/-- Function `read_id_url_pairs_from_csv` (main.py lines 168-194): parse the
rows, set `total_urls` to the number of well-formed pairs, and chunk the pairs
into `numChunks` batches.  Returns the pair (total_urls, batches), or the
uncaught exception raised by `chunk_data`. -/
def read_id_url_pairs_from_csv (rows : List (List String)) :
    Except String (Nat × List (List (Int × String))) :=
  let pairs := read_id_url_pairs rows
  (chunk_data_py pairs (numChunks pairs.length)).map fun cs => (pairs.length, cs)

/-- A row of the result-sink file `new_descriptions.csv`: the two-cell header
row (ID, Description) or a data row `(book_id, description)`; a data row is
kept distinct from the header by type, faithful because the first field of a
data row is the decimal rendering of an integer, never the word ID. -/
inductive ResultRow where
  | header
  | data (id : Int) (desc : Option String)
deriving DecidableEq, Repr

/-- The header step of `main` (main.py lines 216-219): open the result sink in
append mode and write the header row iff `file.tell() == 0`, i.e. iff the file
is empty. -/
def write_header (sink : List ResultRow) : List ResultRow :=
  if sink = [] then [ResultRow.header] else sink

/-- One program run, as seen by the result-sink file: the header step followed
by appending the data rows of the run. -/
def run_result_sink (rows : List (Int × Option String)) (sink : List ResultRow) :
    List ResultRow :=
  write_header sink ++ rows.map fun r => ResultRow.data r.1 r.2

/-- Number of header rows in a result-sink file. -/
def countHeader (sink : List ResultRow) : Nat :=
  (sink.filter fun r => r = ResultRow.header).length

/-- Start index of chunk `i` in `chunk_data` for input length `T` and chunk
count `n`: with `k = T / n` and `m = T % n`, the Python slice for chunk `i`
begins at `i * k + min i m`. -/
def chunkStart (T n i : Nat) : Nat := i * (T / n) + min i (T % n)

/-- Counter values in the half-open window of width `len` after `c` at which
the ETA branch fires (new count divisible by 10). -/
def etaPoints (c len : Nat) : List Nat :=
  ((List.range len).map fun j => c + j + 1).filter fun x => decide (x % 10 = 0)

/-- Counter values in the half-open window of width `len` after `c` at which
the completion branch fires (new count equal to `total`). -/
def donePoints (c len total : Nat) : List Nat :=
  ((List.range len).map fun j => c + j + 1).filter fun x => decide (x = total)

/-! Theorems. -/

theorem chunkStart_zero (T n : Nat) : chunkStart T n 0 = 0 := by
  simp [chunkStart]

theorem chunkStart_mono (T n i : Nat) : chunkStart T n i ≤ chunkStart T n (i + 1) := by
  unfold chunkStart
  have h1 : i * (T / n) ≤ (i + 1) * (T / n) :=
    Nat.mul_le_mul_right _ (Nat.le_succ i)
  have h2 : min i (T % n) ≤ min (i + 1) (T % n) :=
    min_le_min (Nat.le_succ i) le_rfl
  omega

theorem chunkStart_le_of_le (T n : Nat) {i j : Nat} (h : i ≤ j) :
    chunkStart T n i ≤ chunkStart T n j :=
  monotone_nat_of_le_succ (chunkStart_mono T n) h

theorem chunkStart_last (T n : Nat) (hn : n ≠ 0) : chunkStart T n n = T := by
  unfold chunkStart
  have hm : T % n < n := Nat.mod_lt _ (Nat.pos_of_ne_zero hn)
  have hmin : min n (T % n) = T % n := Nat.min_eq_right (Nat.le_of_lt hm)
  rw [hmin, Nat.div_add_mod]

theorem chunkStart_step (T n i : Nat) :
    chunkStart T n (i + 1) - chunkStart T n i = T / n ∨
    chunkStart T n (i + 1) - chunkStart T n i = T / n + 1 := by
  unfold chunkStart
  rw [Nat.succ_mul]
  rcases Nat.lt_or_ge i (T % n) with hi | hi
  · right
    rw [Nat.min_eq_left (Nat.le_of_lt hi), Nat.min_eq_left hi]
    have h : i * (T / n) + T / n + (i + 1) = i * (T / n) + i + (T / n + 1) := by ring
    rw [h, Nat.add_sub_cancel_left]
  · left
    rw [Nat.min_eq_right hi, Nat.min_eq_right (Nat.le_succ_of_le hi)]
    have h : i * (T / n) + T / n + T % n = i * (T / n) + T % n + (T / n) := by ring
    rw [h, Nat.add_sub_cancel_left]

theorem chunk_data_eq_slices (data : List α) (n : Nat) :
    chunk_data data n = (List.range n).map fun i =>
      (data.drop (chunkStart data.length n i)).take
        (chunkStart data.length n (i + 1) - chunkStart data.length n i) := rfl

theorem flatten_slices (l : List α) (f : Nat → Nat) (hmono : ∀ i, f i ≤ f (i + 1))
    (h0 : f 0 = 0) (n : Nat) :
    ((List.range n).map fun i => (l.drop (f i)).take (f (i + 1) - f i)).flatten
      = l.take (f n) := by
  induction n with
  | zero => simp [h0]
  | succ n ih =>
    rw [List.range_succ, List.map_append, List.flatten_append, ih]
    simp only [List.map_cons, List.map_nil, List.flatten_cons, List.flatten_nil,
      List.append_nil]
    rw [← List.take_add, Nat.add_sub_cancel' (hmono n)]

theorem chunk_data_flatten (data : List α) (n : Nat) (hn : n ≠ 0) :
    (chunk_data data n).flatten = data := by
  rw [chunk_data_eq_slices,
    flatten_slices data (chunkStart data.length n) (chunkStart_mono data.length n)
      (chunkStart_zero data.length n) n,
    chunkStart_last data.length n hn, List.take_length]

theorem chunk_data_length (data : List α) (n : Nat) :
    (chunk_data data n).length = n := by
  rw [chunk_data_eq_slices, List.length_map, List.length_range]

theorem chunk_data_sizes (data : List α) (n : Nat) (hn : n ≠ 0) :
    ∀ c ∈ chunk_data data n,
      c.length = data.length / n ∨ c.length = data.length / n + 1 := by
  intro c hc
  rw [chunk_data_eq_slices, List.mem_map] at hc
  obtain ⟨i, hi, rfl⟩ := hc
  rw [List.mem_range] at hi
  have hle : chunkStart data.length n (i + 1) ≤ data.length := by
    have := chunkStart_le_of_le data.length n (Nat.succ_le_of_lt hi)
    rwa [chunkStart_last data.length n hn] at this
  have hstep := chunkStart_mono data.length n i
  rw [List.length_take, List.length_drop, Nat.min_eq_left (by omega)]
  exact chunkStart_step data.length n i

/-- C2: for every input list and batch count n ≥ 1, `chunk_data` returns
exactly n batches, each of size `floor(T/n)` or `floor(T/n)+1`, whose sizes
sum to T and whose in-order concatenation is the original list. -/
theorem C2_chunk_partition (data : List α) (n : Nat) (hn : 1 ≤ n) :
    (chunk_data data n).length = n ∧
    (chunk_data data n).flatten = data ∧
    ((chunk_data data n).map List.length).sum = data.length ∧
    ∀ c ∈ chunk_data data n,
      c.length = data.length / n ∨ c.length = data.length / n + 1 := by
  have hn' : n ≠ 0 := by omega
  refine ⟨chunk_data_length data n, chunk_data_flatten data n hn', ?_,
    chunk_data_sizes data n hn'⟩
  rw [← List.length_flatten, chunk_data_flatten data n hn']

/-- C2 witness: chunking five elements into two batches. -/
theorem C2_chunk_partition_witness :
    (chunk_data [10, 20, 30, 40, 50] 2).length = 2 ∧
    (chunk_data [10, 20, 30, 40, 50] 2).flatten = [10, 20, 30, 40, 50] ∧
    ((chunk_data [10, 20, 30, 40, 50] 2).map List.length).sum = 5 ∧
    ∀ c ∈ chunk_data [10, 20, 30, 40, 50] 2, c.length = 5 / 2 ∨ c.length = 5 / 2 + 1 := by
  have h := C2_chunk_partition [10, 20, 30, 40, 50] 2 (by decide)
  simpa using h

theorem progress_update_resultRows (total : Nat) (s : SysState) :
    (progress_update total s).resultRows = s.resultRows := rfl

theorem progress_update_errorRows (total : Nat) (s : SysState) :
    (progress_update total s).errorRows = s.errorRows := rfl

theorem progress_update_count (total : Nat) (s : SysState) :
    (progress_update total s).scraped_count = s.scraped_count + 1 := rfl

theorem progress_update_etaLogs (total : Nat) (s : SysState) :
    (progress_update total s).etaLogs =
      if (s.scraped_count + 1) % 10 = 0 then s.etaLogs ++ [s.scraped_count + 1]
      else s.etaLogs := rfl

theorem progress_update_doneLogs (total : Nat) (s : SysState) :
    (progress_update total s).doneLogs =
      if s.scraped_count + 1 = total then s.doneLogs ++ [s.scraped_count + 1]
      else s.doneLogs := rfl

theorem runItems_resultRows (batch : List ((Int × String) × ItemEnv)) (total : Nat)
    (s : SysState) (acc : List (Int × Option String)) :
    (runItems batch total s acc).1.resultRows = s.resultRows := by
  induction batch generalizing s acc with
  | nil => rfl
  | cons p rest ih =>
    obtain ⟨⟨bid, url⟩, fr, ef⟩ := p
    cases fr with
    | success region =>
      simp only [runItems]
      rw [ih, progress_update_resultRows]
    | failure msg =>
      cases ef with
      | true => simp [runItems, progress_update_resultRows]
      | false =>
        simp only [runItems, Bool.false_eq_true, if_neg, ite_false]
        rw [ih, progress_update_resultRows]

theorem runItems_aborted (batch : List ((Int × String) × ItemEnv)) (total : Nat)
    (s : SysState) (acc : List (Int × Option String))
    (h : ∀ p ∈ batch, p.2.errSinkFail = false) :
    (runItems batch total s acc).2.2 = false := by
  induction batch generalizing s acc with
  | nil => rfl
  | cons p rest ih =>
    have hef : p.2.errSinkFail = false := h p (List.mem_cons_self p rest)
    have hrest : ∀ q ∈ rest, q.2.errSinkFail = false :=
      fun q hq => h q (List.mem_cons_of_mem p hq)
    obtain ⟨⟨bid, url⟩, fr, ef⟩ := p
    cases fr with
    | success region =>
      simp only [runItems]
      exact ih _ _ hrest
    | failure msg =>
      simp only at hef
      subst hef
      simp only [runItems, Bool.false_eq_true, ite_false]
      exact ih _ _ hrest

theorem runItems_results (batch : List ((Int × String) × ItemEnv)) (total : Nat)
    (s : SysState) (acc : List (Int × Option String))
    (h : ∀ p ∈ batch, p.2.errSinkFail = false) :
    (runItems batch total s acc).2.1 = acc ++ batch.map itemResult := by
  induction batch generalizing s acc with
  | nil => simp [runItems]
  | cons p rest ih =>
    have hef : p.2.errSinkFail = false := h p (List.mem_cons_self p rest)
    have hrest : ∀ q ∈ rest, q.2.errSinkFail = false :=
      fun q hq => h q (List.mem_cons_of_mem p hq)
    obtain ⟨⟨bid, url⟩, fr, ef⟩ := p
    cases fr with
    | success region =>
      simp only [runItems]
      rw [ih _ _ hrest]
      simp [itemResult]
    | failure msg =>
      simp only at hef
      subst hef
      simp only [runItems, Bool.false_eq_true, ite_false]
      rw [ih _ _ hrest]
      simp [itemResult]

theorem runItems_count (batch : List ((Int × String) × ItemEnv)) (total : Nat)
    (s : SysState) (acc : List (Int × Option String))
    (h : ∀ p ∈ batch, p.2.errSinkFail = false) :
    (runItems batch total s acc).1.scraped_count = s.scraped_count + batch.length := by
  induction batch generalizing s acc with
  | nil => rfl
  | cons p rest ih =>
    have hef : p.2.errSinkFail = false := h p (List.mem_cons_self p rest)
    have hrest : ∀ q ∈ rest, q.2.errSinkFail = false :=
      fun q hq => h q (List.mem_cons_of_mem p hq)
    obtain ⟨⟨bid, url⟩, fr, ef⟩ := p
    cases fr with
    | success region =>
      simp only [runItems]
      rw [ih _ _ hrest, progress_update_count, List.length_cons]
      omega
    | failure msg =>
      simp only at hef
      subst hef
      simp only [runItems, Bool.false_eq_true, ite_false]
      rw [ih _ _ hrest, progress_update_count, List.length_cons]
      simp
      omega

theorem runItems_errorRows (batch : List ((Int × String) × ItemEnv)) (total : Nat)
    (s : SysState) (acc : List (Int × Option String))
    (h : ∀ p ∈ batch, p.2.errSinkFail = false) :
    (runItems batch total s acc).1.errorRows = s.errorRows ++ batch.filterMap itemError := by
  induction batch generalizing s acc with
  | nil => simp [runItems]
  | cons p rest ih =>
    have hef : p.2.errSinkFail = false := h p (List.mem_cons_self p rest)
    have hrest : ∀ q ∈ rest, q.2.errSinkFail = false :=
      fun q hq => h q (List.mem_cons_of_mem p hq)
    obtain ⟨⟨bid, url⟩, fr, ef⟩ := p
    cases fr with
    | success region =>
      simp only [runItems]
      rw [ih _ _ hrest, progress_update_errorRows]
      simp [itemError]
    | failure msg =>
      simp only at hef
      subst hef
      simp only [runItems, Bool.false_eq_true, ite_false]
      rw [ih _ _ hrest, progress_update_errorRows]
      simp [itemError]

theorem filter_window_succ (c len : Nat) (p : Nat → Bool) :
    ((List.range (len + 1)).map fun j => c + j + 1).filter p
      = (if p (c + 1) then [c + 1] else [])
        ++ ((List.range len).map fun j => (c + 1) + j + 1).filter p := by
  rw [List.range_succ_eq_map, List.map_cons, List.map_map]
  have hmap : (List.range len).map ((fun j => c + j + 1) ∘ Nat.succ)
      = (List.range len).map fun j => (c + 1) + j + 1 := by
    apply List.map_congr_left
    intro j _
    simp only [Function.comp]
    omega
  rw [hmap, List.filter_cons]
  have hc : c + 0 + 1 = c + 1 := by omega
  rw [hc]
  by_cases hp : p (c + 1)
  · simp [hp]
  · simp [hp]

theorem etaPoints_succ (c len : Nat) :
    etaPoints c (len + 1)
      = (if (c + 1) % 10 = 0 then [c + 1] else []) ++ etaPoints (c + 1) len := by
  unfold etaPoints
  rw [filter_window_succ]
  by_cases hp : (c + 1) % 10 = 0
  · simp [hp]
  · simp [hp]

theorem donePoints_succ (c len total : Nat) :
    donePoints c (len + 1) total
      = (if c + 1 = total then [c + 1] else []) ++ donePoints (c + 1) len total := by
  unfold donePoints
  rw [filter_window_succ]
  by_cases hp : c + 1 = total
  · simp [hp]
  · simp [hp]

theorem runItems_etaLogs (batch : List ((Int × String) × ItemEnv)) (total : Nat)
    (s : SysState) (acc : List (Int × Option String))
    (h : ∀ p ∈ batch, p.2.errSinkFail = false) :
    (runItems batch total s acc).1.etaLogs
      = s.etaLogs ++ etaPoints s.scraped_count batch.length := by
  induction batch generalizing s acc with
  | nil => simp [runItems, etaPoints]
  | cons p rest ih =>
    have hef : p.2.errSinkFail = false := h p (List.mem_cons_self p rest)
    have hrest : ∀ q ∈ rest, q.2.errSinkFail = false :=
      fun q hq => h q (List.mem_cons_of_mem p hq)
    obtain ⟨⟨bid, url⟩, fr, ef⟩ := p
    have step : ∀ s' : SysState, s'.scraped_count = s.scraped_count →
        s'.etaLogs = s.etaLogs →
        (progress_update total s').etaLogs ++ etaPoints (progress_update total s').scraped_count rest.length
          = s.etaLogs ++ etaPoints s.scraped_count (rest.length + 1) := by
      intro s' hc he
      rw [progress_update_etaLogs, progress_update_count, hc, he,
        etaPoints_succ s.scraped_count rest.length]
      by_cases hp : (s.scraped_count + 1) % 10 = 0
      · simp [hp]
      · simp [hp]
    cases fr with
    | success region =>
      simp only [runItems]
      rw [ih _ _ hrest, List.length_cons]
      exact step _ rfl rfl
    | failure msg =>
      simp only at hef
      subst hef
      simp only [runItems, Bool.false_eq_true, ite_false]
      rw [ih _ _ hrest, List.length_cons]
      exact step _ rfl rfl

theorem runItems_doneLogs (batch : List ((Int × String) × ItemEnv)) (total : Nat)
    (s : SysState) (acc : List (Int × Option String))
    (h : ∀ p ∈ batch, p.2.errSinkFail = false) :
    (runItems batch total s acc).1.doneLogs
      = s.doneLogs ++ donePoints s.scraped_count batch.length total := by
  induction batch generalizing s acc with
  | nil => simp [runItems, donePoints]
  | cons p rest ih =>
    have hef : p.2.errSinkFail = false := h p (List.mem_cons_self p rest)
    have hrest : ∀ q ∈ rest, q.2.errSinkFail = false :=
      fun q hq => h q (List.mem_cons_of_mem p hq)
    obtain ⟨⟨bid, url⟩, fr, ef⟩ := p
    have step : ∀ s' : SysState, s'.scraped_count = s.scraped_count →
        s'.doneLogs = s.doneLogs →
        (progress_update total s').doneLogs ++ donePoints (progress_update total s').scraped_count rest.length total
          = s.doneLogs ++ donePoints s.scraped_count (rest.length + 1) total := by
      intro s' hc he
      rw [progress_update_doneLogs, progress_update_count, hc, he,
        donePoints_succ s.scraped_count rest.length total]
      by_cases hp : s.scraped_count + 1 = total
      · simp [hp]
      · simp [hp]
    cases fr with
    | success region =>
      simp only [runItems]
      rw [ih _ _ hrest, List.length_cons]
      exact step _ rfl rfl
    | failure msg =>
      simp only at hef
      subst hef
      simp only [runItems, Bool.false_eq_true, ite_false]
      rw [ih _ _ hrest, List.length_cons]
      exact step _ rfl rfl

theorem save_to_csv_count (rf : Bool) (res : List (Int × Option String)) (s : SysState) :
    (save_to_csv rf res s).scraped_count = s.scraped_count := by
  unfold save_to_csv
  split <;> rfl

theorem save_to_csv_errorRows (rf : Bool) (res : List (Int × Option String)) (s : SysState) :
    (save_to_csv rf res s).errorRows = s.errorRows := by
  unfold save_to_csv
  split <;> rfl

theorem save_to_csv_etaLogs (rf : Bool) (res : List (Int × Option String)) (s : SysState) :
    (save_to_csv rf res s).etaLogs = s.etaLogs := by
  unfold save_to_csv
  split <;> rfl

theorem save_to_csv_doneLogs (rf : Bool) (res : List (Int × Option String)) (s : SysState) :
    (save_to_csv rf res s).doneLogs = s.doneLogs := by
  unfold save_to_csv
  split <;> rfl

theorem save_to_csv_resultRows_ok (res : List (Int × Option String)) (s : SysState) :
    (save_to_csv false res s).resultRows = s.resultRows ++ res := by
  simp [save_to_csv]

theorem save_to_csv_resultRows_fail (res : List (Int × Option String)) (s : SysState) :
    (save_to_csv true res s).resultRows = s.resultRows := by
  simp [save_to_csv]

theorem scrape_urls_eq (batch : List ((Int × String) × ItemEnv)) (rf : Bool)
    (total : Nat) (s : SysState) (h : ∀ p ∈ batch, p.2.errSinkFail = false) :
    scrape_urls batch rf total s
      = (save_to_csv rf (batch.map itemResult) (runItems batch total s []).1,
         some "Scraping complete") := by
  have ha := runItems_aborted batch total s [] h
  have hr := runItems_results batch total s [] h
  rcases hE : runItems batch total s [] with ⟨s', res, ab⟩
  rw [hE] at ha hr
  simp only at ha hr
  subst ha
  subst hr
  unfold scrape_urls
  rw [hE]
  simp

/-- C1 counterexample: an item whose fetch fails with a timeout produces BOTH
an error-sink row and a result-sink row (with description None), because the
except branch of scrape_urls appends to the local results list (main.py
line 94) in addition to calling log_error_to_csv (line 95). -/
theorem C1_cex :
    ((scrape_urls [((2, "http://b"), ⟨.failure "timeout", false⟩)] false 1
        initState).1.resultRows = [(2, none)]) ∧
    ((scrape_urls [((2, "http://b"), ⟨.failure "timeout", false⟩)] false 1
        initState).1.errorRows = [(2, "http://b", "timeout")]) := by
  constructor <;> rfl

/-- C1 amended: with no sink IO failures, every processed item yields exactly
one result-sink row (in order), and exactly the items whose fetch failed
additionally yield one error-sink row; a fetch-failed item gets a result-sink
row with description None alongside its error-sink row. -/
theorem C1_amended (batch : List ((Int × String) × ItemEnv)) (total : Nat)
    (s : SysState) (h : ∀ p ∈ batch, p.2.errSinkFail = false) :
    ((scrape_urls batch false total s).1.resultRows
        = s.resultRows ++ batch.map itemResult) ∧
    ((scrape_urls batch false total s).1.errorRows
        = s.errorRows ++ batch.filterMap itemError) ∧
    (∀ p ∈ batch, ∀ msg, p.2.fetch = .failure msg →
      itemResult p = (p.1.1, none) ∧ itemError p = some (p.1.1, p.1.2, msg)) := by
  rw [scrape_urls_eq batch false total s h]
  refine ⟨?_, ?_, ?_⟩
  · rw [save_to_csv_resultRows_ok, runItems_resultRows]
  · rw [save_to_csv_errorRows, runItems_errorRows batch total s [] h]
  · intro p _ msg hmsg
    constructor
    · unfold itemResult
      rw [hmsg]
    · unfold itemError
      rw [hmsg]

/-- C1 amended witness: a successful item and a failing item. -/
theorem C1_amended_witness :
    (∀ p ∈ [((1, "a"), (⟨.success (some "0123456789X"), false⟩ : ItemEnv)),
        ((2, "b"), ⟨.failure "timeout", false⟩)], p.2.errSinkFail = false) ∧
    (((scrape_urls [((1, "a"), ⟨.success (some "0123456789X"), false⟩),
        ((2, "b"), ⟨.failure "timeout", false⟩)] false 2 initState).1.resultRows
        = initState.resultRows ++
          [((1, "a"), (⟨.success (some "0123456789X"), false⟩ : ItemEnv)),
            ((2, "b"), ⟨.failure "timeout", false⟩)].map itemResult) ∧
      ((scrape_urls [((1, "a"), ⟨.success (some "0123456789X"), false⟩),
        ((2, "b"), ⟨.failure "timeout", false⟩)] false 2 initState).1.errorRows
        = initState.errorRows ++
          [((1, "a"), (⟨.success (some "0123456789X"), false⟩ : ItemEnv)),
            ((2, "b"), ⟨.failure "timeout", false⟩)].filterMap itemError) ∧
      (∀ p ∈ [((1, "a"), (⟨.success (some "0123456789X"), false⟩ : ItemEnv)),
          ((2, "b"), ⟨.failure "timeout", false⟩)], ∀ msg, p.2.fetch = .failure msg →
        itemResult p = (p.1.1, none) ∧ itemError p = some (p.1.1, p.1.2, msg))) :=
  ⟨by decide, C1_amended _ 2 initState (by decide)⟩

/-- C3: with the sinks operating normally, fetch/extract exceptions on any
items of a batch never abort the batch: scrape_urls returns its completion
message (the exception does not propagate out), and every item of the batch —
in particular every item after a failing one — is processed: the counter is
incremented once per item and each item contributes its result row. -/
theorem C3_failure_isolation (batch : List ((Int × String) × ItemEnv)) (rf : Bool)
    (total : Nat) (s : SysState) (h : ∀ p ∈ batch, p.2.errSinkFail = false) :
    ((scrape_urls batch rf total s).2 = some "Scraping complete") ∧
    ((scrape_urls batch rf total s).1.scraped_count
        = s.scraped_count + batch.length) ∧
    ((scrape_urls batch false total s).1.resultRows
        = s.resultRows ++ batch.map itemResult) := by
  rw [scrape_urls_eq batch rf total s h, scrape_urls_eq batch false total s h]
  refine ⟨rfl, ?_, ?_⟩
  · rw [save_to_csv_count, runItems_count batch total s [] h]
  · rw [save_to_csv_resultRows_ok, runItems_resultRows]

/-- C3 witness: a batch whose first item fails is still fully processed. -/
theorem C3_failure_isolation_witness :
    (∀ p ∈ [((1, "a"), (⟨.failure "boom", false⟩ : ItemEnv)),
        ((2, "b"), ⟨.success none, false⟩)], p.2.errSinkFail = false) ∧
    (((scrape_urls [((1, "a"), ⟨.failure "boom", false⟩),
        ((2, "b"), ⟨.success none, false⟩)] false 2 initState).2
        = some "Scraping complete") ∧
      ((scrape_urls [((1, "a"), ⟨.failure "boom", false⟩),
        ((2, "b"), ⟨.success none, false⟩)] false 2 initState).1.scraped_count
        = initState.scraped_count +
          [((1, "a"), (⟨.failure "boom", false⟩ : ItemEnv)),
            ((2, "b"), ⟨.success none, false⟩)].length) ∧
      ((scrape_urls [((1, "a"), ⟨.failure "boom", false⟩),
        ((2, "b"), ⟨.success none, false⟩)] false 2 initState).1.resultRows
        = initState.resultRows ++
          [((1, "a"), (⟨.failure "boom", false⟩ : ItemEnv)),
            ((2, "b"), ⟨.success none, false⟩)].map itemResult)) :=
  ⟨by decide, C3_failure_isolation _ false 2 initState (by decide)⟩

/-- C9: on fetch success with no matching description region, or with an
extracted text shorter than 10 characters, the item is recorded to the result
sink as (id, None) and nothing is written to the error sink. -/
theorem C9_extraction_miss (bid : Int) (url : String) (region : Option String)
    (total : Nat) (s : SysState)
    (h : region = none ∨ ∃ t, region = some t ∧ t.length < 10) :
    ((scrape_urls [((bid, url), ⟨.success region, false⟩)] false total s).1.resultRows
        = s.resultRows ++ [(bid, none)]) ∧
    ((scrape_urls [((bid, url), ⟨.success region, false⟩)] false total s).1.errorRows
        = s.errorRows) := by
  have hb : ∀ p ∈ [((bid, url), (⟨.success region, false⟩ : ItemEnv))],
      p.2.errSinkFail = false := by
    intro p hp
    rw [List.mem_singleton] at hp
    subst hp
    rfl
  rw [scrape_urls_eq _ false total s hb]
  have hdesc : descriptionOf region = none := by
    rcases h with h | ⟨t, rfl, ht⟩
    · subst h
      rfl
    · simp [descriptionOf, ht]
  constructor
  · rw [save_to_csv_resultRows_ok, runItems_resultRows]
    simp [itemResult, hdesc]
  · rw [save_to_csv_errorRows, runItems_errorRows _ total s [] hb]
    simp [itemError]

/-- C9 witness: a nine-character extracted text is normalized to None. -/
theorem C9_extraction_miss_witness :
    ((some "too short" : Option String) = none ∨
      ∃ t, (some "too short" : Option String) = some t ∧ t.length < 10) ∧
    (((scrape_urls [((3, "http://c"), ⟨.success (some "too short"), false⟩)]
        false 3 initState).1.resultRows = initState.resultRows ++ [(3, none)]) ∧
      ((scrape_urls [((3, "http://c"), ⟨.success (some "too short"), false⟩)]
        false 3 initState).1.errorRows = initState.errorRows)) :=
  ⟨Or.inr ⟨"too short", rfl, by decide⟩,
    C9_extraction_miss 3 "http://c" (some "too short") 3 initState
      (Or.inr ⟨"too short", rfl, by decide⟩)⟩

theorem scrape_urls_count (batch : List ((Int × String) × ItemEnv)) (rf : Bool)
    (total : Nat) (s : SysState) (h : ∀ p ∈ batch, p.2.errSinkFail = false) :
    (scrape_urls batch rf total s).1.scraped_count = s.scraped_count + batch.length := by
  rw [scrape_urls_eq batch rf total s h]
  rw [show (save_to_csv rf (batch.map itemResult) (runItems batch total s []).1,
      some "Scraping complete").1 = save_to_csv rf (batch.map itemResult)
      (runItems batch total s []).1 from rfl]
  rw [save_to_csv_count, runItems_count batch total s [] h]

/-- C8 counterexample: with a single URL (total = 1), when the counter reaches
total the code logs only the completion message; no ETA is computed or logged
because 1 is not a multiple of 10 — refuting the claim that an ETA is logged
whenever the new count equals total. -/
theorem C8_cex :
    ((scrape_urls [((1, "u"), ⟨.success none, false⟩)] false 1
        initState).1.scraped_count = 1) ∧
    ((scrape_urls [((1, "u"), ⟨.success none, false⟩)] false 1
        initState).1.doneLogs = [1]) ∧
    ((scrape_urls [((1, "u"), ⟨.success none, false⟩)] false 1
        initState).1.etaLogs = []) := by
  refine ⟨rfl, rfl, rfl⟩

/-- C8 amended: after each per-item increment, an ETA is computed and logged
exactly when the new count is a multiple of 10; when the new count equals
total, only a distinct completion message (without an ETA) is logged. -/
theorem C8_amended (batch : List ((Int × String) × ItemEnv)) (rf : Bool)
    (total : Nat) (s : SysState) (h : ∀ p ∈ batch, p.2.errSinkFail = false) :
    ((scrape_urls batch rf total s).1.etaLogs
        = s.etaLogs ++ etaPoints s.scraped_count batch.length) ∧
    ((scrape_urls batch rf total s).1.doneLogs
        = s.doneLogs ++ donePoints s.scraped_count batch.length total) ∧
    (∀ x ∈ etaPoints s.scraped_count batch.length, x % 10 = 0) ∧
    (∀ x ∈ donePoints s.scraped_count batch.length total, x = total) := by
  rw [scrape_urls_eq batch rf total s h]
  refine ⟨?_, ?_, ?_, ?_⟩
  · rw [show (save_to_csv rf (batch.map itemResult) (runItems batch total s []).1,
        some "Scraping complete").1 = save_to_csv rf (batch.map itemResult)
        (runItems batch total s []).1 from rfl]
    rw [save_to_csv_etaLogs, runItems_etaLogs batch total s [] h]
  · rw [show (save_to_csv rf (batch.map itemResult) (runItems batch total s []).1,
        some "Scraping complete").1 = save_to_csv rf (batch.map itemResult)
        (runItems batch total s []).1 from rfl]
    rw [save_to_csv_doneLogs, runItems_doneLogs batch total s [] h]
  · intro x hx
    unfold etaPoints at hx
    rw [List.mem_filter] at hx
    exact of_decide_eq_true hx.2
  · intro x hx
    unfold donePoints at hx
    rw [List.mem_filter] at hx
    exact of_decide_eq_true hx.2

/-- C8 amended witness: two items with total 2. -/
theorem C8_amended_witness :
    (∀ p ∈ [((1, "a"), (⟨.success none, false⟩ : ItemEnv)),
        ((2, "b"), ⟨.success none, false⟩)], p.2.errSinkFail = false) ∧
    (((scrape_urls [((1, "a"), ⟨.success none, false⟩),
        ((2, "b"), ⟨.success none, false⟩)] false 2 initState).1.etaLogs
        = initState.etaLogs ++ etaPoints initState.scraped_count
          [((1, "a"), (⟨.success none, false⟩ : ItemEnv)),
            ((2, "b"), ⟨.success none, false⟩)].length) ∧
      ((scrape_urls [((1, "a"), ⟨.success none, false⟩),
        ((2, "b"), ⟨.success none, false⟩)] false 2 initState).1.doneLogs
        = initState.doneLogs ++ donePoints initState.scraped_count
          [((1, "a"), (⟨.success none, false⟩ : ItemEnv)),
            ((2, "b"), ⟨.success none, false⟩)].length 2) ∧
      (∀ x ∈ etaPoints initState.scraped_count
          [((1, "a"), (⟨.success none, false⟩ : ItemEnv)),
            ((2, "b"), ⟨.success none, false⟩)].length, x % 10 = 0) ∧
      (∀ x ∈ donePoints initState.scraped_count
          [((1, "a"), (⟨.success none, false⟩ : ItemEnv)),
            ((2, "b"), ⟨.success none, false⟩)].length 2, x = 2)) :=
  ⟨by decide, C8_amended _ false 2 initState (by decide)⟩

/-- C6 counterexample: an IO failure while appending to the error sink is not
caught (log_error_to_csv has no try/except): the exception propagates out of
scrape_urls (return value none), the remaining item of the batch is never
processed (counter stops at 1), and the whole in-memory results of the batch
are lost (no result-sink row, and not even the error row was written). -/
theorem C6_cex :
    ((scrape_urls [((1, "a"), ⟨.failure "t", true⟩),
        ((2, "b"), ⟨.success (some "0123456789"), false⟩)] false 2
        initState).2 = none) ∧
    ((scrape_urls [((1, "a"), ⟨.failure "t", true⟩),
        ((2, "b"), ⟨.success (some "0123456789"), false⟩)] false 2
        initState).1.scraped_count = 1) ∧
    ((scrape_urls [((1, "a"), ⟨.failure "t", true⟩),
        ((2, "b"), ⟨.success (some "0123456789"), false⟩)] false 2
        initState).1.resultRows = []) ∧
    ((scrape_urls [((1, "a"), ⟨.failure "t", true⟩),
        ((2, "b"), ⟨.success (some "0123456789"), false⟩)] false 2
        initState).1.errorRows = []) := by
  refine ⟨rfl, rfl, rfl, rfl⟩

/-- C6 amended: an IO failure of the result-sink flush is caught and logged —
only the flushed rows of that batch are lost, while the error-sink rows, the
counter updates and the normal return are unaffected; and whatever happens
inside one batch (including an uncaught error-sink IO failure), a following
batch with working sinks is still fully processed. -/
theorem C6_amended (batch : List ((Int × String) × ItemEnv)) (total : Nat)
    (s : SysState) (h : ∀ p ∈ batch, p.2.errSinkFail = false) :
    ((scrape_urls batch true total s).2 = some "Scraping complete") ∧
    ((scrape_urls batch true total s).1.resultRows = s.resultRows) ∧
    ((scrape_urls batch true total s).1.errorRows
        = s.errorRows ++ batch.filterMap itemError) ∧
    ((scrape_urls batch true total s).1.scraped_count
        = s.scraped_count + batch.length) ∧
    (∀ (b1 : List ((Int × String) × ItemEnv)) (rf : Bool),
      (run_batches [b1, batch] rf total s).scraped_count
        = (scrape_urls b1 rf total s).1.scraped_count + batch.length) := by
  refine ⟨?_, ?_, ?_, scrape_urls_count batch true total s h, ?_⟩
  · rw [scrape_urls_eq batch true total s h]
  · rw [scrape_urls_eq batch true total s h]
    rw [show (save_to_csv true (batch.map itemResult) (runItems batch total s []).1,
        some "Scraping complete").1 = save_to_csv true (batch.map itemResult)
        (runItems batch total s []).1 from rfl]
    rw [save_to_csv_resultRows_fail, runItems_resultRows]
  · rw [scrape_urls_eq batch true total s h]
    rw [show (save_to_csv true (batch.map itemResult) (runItems batch total s []).1,
        some "Scraping complete").1 = save_to_csv true (batch.map itemResult)
        (runItems batch total s []).1 from rfl]
    rw [save_to_csv_errorRows, runItems_errorRows batch total s [] h]
  · intro b1 rf
    show (scrape_urls batch rf total (scrape_urls b1 rf total s).1).1.scraped_count = _
    rw [scrape_urls_count batch rf total _ h]

/-- C6 amended witness: one failing-fetch item with working sinks except the
result-sink flush, preceded in the second part by a batch that aborts. -/
theorem C6_amended_witness :
    (∀ p ∈ [((2, "b"), (⟨.failure "t", false⟩ : ItemEnv))],
      p.2.errSinkFail = false) ∧
    (((scrape_urls [((2, "b"), ⟨.failure "t", false⟩)] true 1 initState).2
        = some "Scraping complete") ∧
      ((scrape_urls [((2, "b"), ⟨.failure "t", false⟩)] true 1
        initState).1.resultRows = initState.resultRows) ∧
      ((scrape_urls [((2, "b"), ⟨.failure "t", false⟩)] true 1
        initState).1.errorRows = initState.errorRows ++
          [((2, "b"), (⟨.failure "t", false⟩ : ItemEnv))].filterMap itemError) ∧
      ((scrape_urls [((2, "b"), ⟨.failure "t", false⟩)] true 1
        initState).1.scraped_count = initState.scraped_count +
          [((2, "b"), (⟨.failure "t", false⟩ : ItemEnv))].length) ∧
      (∀ (b1 : List ((Int × String) × ItemEnv)) (rf : Bool),
        (run_batches [b1, [((2, "b"), ⟨.failure "t", false⟩)]] rf 1
            initState).scraped_count
          = (scrape_urls b1 rf 1 initState).1.scraped_count +
            [((2, "b"), (⟨.failure "t", false⟩ : ItemEnv))].length)) :=
  ⟨by decide, C6_amended _ 1 initState (by decide)⟩

theorem run_batches_count (bs : List (List ((Int × String) × ItemEnv))) (rf : Bool)
    (total : Nat) (s : SysState)
    (h : ∀ batch ∈ bs, ∀ p ∈ batch, p.2.errSinkFail = false) :
    (run_batches bs rf total s).scraped_count
      = s.scraped_count + (bs.map List.length).sum := by
  induction bs generalizing s with
  | nil => simp [run_batches]
  | cons b rest ih =>
    have hb := h b (List.mem_cons_self b rest)
    have hrest : ∀ batch ∈ rest, ∀ p ∈ batch, p.2.errSinkFail = false :=
      fun batch hbm => h batch (List.mem_cons_of_mem b hbm)
    show (run_batches rest rf total (scrape_urls b rf total s).1).scraped_count = _
    rw [ih _ hrest, scrape_urls_count b rf total s hb, List.map_cons, List.sum_cons]
    omega

/-- C4: the shared counter starts at 0, each batch worker adds exactly one per
item it processes (fetch failures included), and after all batches of any
partition of the well-formed input have run — in any schedule order, hence for
any worker count — the counter equals the number of well-formed input
items. -/
theorem C4_progress (data : List (Int × String)) (env : (Int × String) → ItemEnv)
    (n total : Nat) (rf : Bool) (hn : 1 ≤ n)
    (henv : ∀ q, (env q).errSinkFail = false)
    (bs : List (List ((Int × String) × ItemEnv)))
    (hperm : bs.Perm (chunk_data (data.map fun q => (q, env q)) n)) :
    (initState.scraped_count = 0) ∧
    (∀ batch ∈ bs, ∀ s : SysState,
      (scrape_urls batch rf total s).1.scraped_count
        = s.scraped_count + batch.length) ∧
    ((run_batches bs rf total initState).scraped_count = data.length) := by
  have hn' : n ≠ 0 := by omega
  have hflat : (chunk_data (data.map fun q => (q, env q)) n).flatten
      = data.map fun q => (q, env q) := chunk_data_flatten _ n hn'
  have hmem : ∀ batch ∈ bs, ∀ p ∈ batch, p.2.errSinkFail = false := by
    intro batch hb p hp
    have hbc : batch ∈ chunk_data (data.map fun q => (q, env q)) n :=
      hperm.mem_iff.mp hb
    have hpf : p ∈ (chunk_data (data.map fun q => (q, env q)) n).flatten :=
      List.mem_flatten.mpr ⟨batch, hbc, hp⟩
    rw [hflat, List.mem_map] at hpf
    obtain ⟨q, _, rfl⟩ := hpf
    exact henv q
  refine ⟨rfl, fun batch hb s => scrape_urls_count batch rf total s (hmem batch hb), ?_⟩
  rw [run_batches_count bs rf total initState hmem]
  have hsum : (bs.map List.length).sum
      = ((chunk_data (data.map fun q => (q, env q)) n).map List.length).sum :=
    (hperm.map List.length).sum_eq
  rw [hsum, ← List.length_flatten, hflat, List.length_map,
    show initState.scraped_count = 0 from rfl]
  omega

/-- C4 witness: three items chunked into two batches, run in reversed order. -/
theorem C4_progress_witness :
    (1 ≤ 2) ∧
    (∀ q : Int × String,
      ((fun _ : Int × String => (⟨.success none, false⟩ : ItemEnv)) q).errSinkFail
        = false) ∧
    ([[((3, "c"), (⟨.success none, false⟩ : ItemEnv))],
      [((1, "a"), ⟨.success none, false⟩),
        ((2, "b"), ⟨.success none, false⟩)]].Perm
      (chunk_data ([(1, "a"), (2, "b"), (3, "c")].map
        fun q : Int × String =>
          (q, (fun _ : Int × String => (⟨.success none, false⟩ : ItemEnv)) q)) 2)) ∧
    ((initState.scraped_count = 0) ∧
      (∀ batch ∈ [[((3, "c"), (⟨.success none, false⟩ : ItemEnv))],
          [((1, "a"), ⟨.success none, false⟩),
            ((2, "b"), ⟨.success none, false⟩)]], ∀ s : SysState,
        (scrape_urls batch false 3 s).1.scraped_count
          = s.scraped_count + batch.length) ∧
      ((run_batches [[((3, "c"), (⟨.success none, false⟩ : ItemEnv))],
          [((1, "a"), ⟨.success none, false⟩),
            ((2, "b"), ⟨.success none, false⟩)]] false 3
          initState).scraped_count
        = [(1, "a"), (2, "b"), (3, "c")].length)) :=
  ⟨by decide, fun _ => rfl, by decide,
    C4_progress [(1, "a"), (2, "b"), (3, "c")]
      (fun _ : Int × String => (⟨.success none, false⟩ : ItemEnv)) 2 3 false
      (by decide) (fun _ => rfl) _ (by decide)⟩

/-- C5: reading an empty input file yields zero well-formed pairs, hence
total = 0 and a batch count of 0; chunk_data then raises an uncaught
ZeroDivisionError (divmod by 0) inside read_id_url_pairs_from_csv, which main
calls before its try/except — so the process does NOT exit cleanly, though no
sink row was written and no worker was dispatched. -/
theorem C5_empty_input_crashes :
    (read_id_url_pairs ([] : List (List String)) = []) ∧
    (numChunks 0 = 0) ∧
    (read_id_url_pairs_from_csv []
      = .error "ZeroDivisionError: integer division or modulo by zero") := by
  refine ⟨rfl, rfl, rfl⟩

theorem countHeader_append (a b : List ResultRow) :
    countHeader (a ++ b) = countHeader a + countHeader b := by
  unfold countHeader
  rw [List.filter_append, List.length_append]

theorem countHeader_dataRows (rows : List (Int × Option String)) :
    countHeader (rows.map fun r => ResultRow.data r.1 r.2) = 0 := by
  induction rows with
  | nil => rfl
  | cons r rest ih =>
    unfold countHeader at ih ⊢
    rw [List.map_cons, List.filter_cons]
    simp only [show (decide (ResultRow.data r.1 r.2 = ResultRow.header)) = false from
      rfl, Bool.false_eq_true, ite_false]
    exact ih

theorem run_result_sink_ne_nil (rows : List (Int × Option String))
    (sink : List ResultRow) : run_result_sink rows sink ≠ [] := by
  unfold run_result_sink write_header
  by_cases hs : sink = []
  · simp [hs]
  · simp [hs]

theorem foldl_runs_countHeader (runs : List (List (Int × Option String)))
    (sink : List ResultRow) (hs : sink ≠ []) :
    countHeader (runs.foldl (fun acc r => run_result_sink r acc) sink)
      = countHeader sink := by
  induction runs generalizing sink with
  | nil => rfl
  | cons r rest ih =>
    show countHeader (rest.foldl _ (run_result_sink r sink)) = _
    rw [ih _ (run_result_sink_ne_nil r sink)]
    unfold run_result_sink write_header
    rw [if_neg hs, countHeader_append, countHeader_dataRows, Nat.add_zero]

/-- C7: the header row is written only when the result sink is empty at open
time — one run against an empty sink yields exactly one header, any run
against a non-empty sink leaves the header count unchanged, and any non-empty
sequence of runs starting from an empty sink ends with exactly one header
row. -/
theorem C7_header_once (rows : List (Int × Option String))
    (runs : List (List (Int × Option String))) :
    (∀ sink : List ResultRow,
      countHeader (run_result_sink rows sink)
        = if sink = [] then 1 else countHeader sink) ∧
    (countHeader (runs.foldl (fun sink r => run_result_sink r sink) [])
        = if runs = [] then 0 else 1) := by
  have hone : ∀ rows2 : List (Int × Option String),
      countHeader (run_result_sink rows2 []) = 1 := by
    intro rows2
    unfold run_result_sink write_header
    rw [if_pos rfl, countHeader_append, countHeader_dataRows]
    rfl
  constructor
  · intro sink
    by_cases hs : sink = []
    · subst hs
      rw [if_pos rfl]
      exact hone rows
    · rw [if_neg hs]
      unfold run_result_sink write_header
      rw [if_neg hs, countHeader_append, countHeader_dataRows, Nat.add_zero]
  · cases runs with
    | nil => rfl
    | cons r rest =>
      rw [if_neg (by simp)]
      show countHeader (rest.foldl _ (run_result_sink r [])) = 1
      rw [foldl_runs_countHeader rest _ (run_result_sink_ne_nil r []), hone r]

/-- C10: a row parses iff it has at least three columns and its second column
(index 1) is an integer; the id is that integer and the url is the third
column (index 2).  In particular a two-column row whose second column is a
perfectly good integer is still rejected. -/
theorem C10_row_parsing :
    (∀ (row : List String) (i : Int) (u : String),
      parseRow row = some (i, u) ↔
        3 ≤ row.length ∧ (row.getD 1 "").toInt? = some i ∧ u = row.getD 2 "") ∧
    (parseRow ["first", "2"] = none) := by
  constructor
  · intro row i u
    rcases row with _ | ⟨a, _ | ⟨b, _ | ⟨c, rest⟩⟩⟩
    · simp [parseRow]
    · simp [parseRow]
    · cases hb : b.toInt? <;> simp [parseRow, hb]
    · cases hb : b.toInt? with
      | none => simp [parseRow, hb, List.getD]
      | some j =>
        simp only [parseRow, List.get?, hb, List.getD, Option.getD, List.length_cons,
          Option.some.injEq, Prod.mk.injEq]
        constructor
        · rintro ⟨h1, h2⟩
          exact ⟨by omega, by rw [h1], h2.symm⟩
        · rintro ⟨_, h1, h2⟩
          exact ⟨h1, h2.symm⟩
  · cases hb : ("2" : String).toInt? <;> simp [parseRow, hb]

end DataScrapper
